import Mathlib

/-!
Shallow embedding of the LSST alert-filtering module
(src/cloud-run/filtering/main.py): temporal discovery classification,
hostless-image detection over sigma-clipped cutouts, candidate gating
and publication routing.

Modelling conventions:
* Pixel values, times and coordinates are exact rationals; the only
  real-valued part is the (commented-out in the source) geometric
  matcher, whose angular separation is transcendental.
* astropy calendar-date formatting (Time(mjd).datetime.strftime of
  "%Y-%m-%d") is modelled at day resolution by the floor of the MJD
  value: MJD day boundaries sit at integer MJD (epoch 1858-11-17
  00:00), so two MJD values format to equal date strings exactly when
  their integer parts agree, and the floor is a consistent, monotone
  day bucket.
* astropy.stats.sigma_clip (cenfunc = median, stdfunc = std,
  sigma and maxiters from the call site) is modelled exactly over the
  rationals: each iteration computes the median and the population
  variance of the unmasked pixels and additionally masks every pixel
  with (x - median)^2 > sigma^2 * variance, which is the source's
  |x - median| > sigma * std criterion squared to stay inside the
  rationals (std = sqrt variance, and sigma is nonnegative at every
  call site).  astropy stops early once an iteration masks nothing
  new; because an iteration that changes nothing is a fixpoint of the
  step function, running the step exactly maxiters times is
  equivalent, and that is how the iteration is embedded.
* Decoding the FITS cutout bytes is external (astropy.io.fits); a
  cutout is modelled as an optional already-decoded pixel grid, and a
  missing cutout makes the read step fail exactly as
  fits.open(io.BytesIO(None)) raises in the source.
-/

/-- One entry of the alert's prv_sources detection history, holding the
fields the filtering module reads (midpointMjdTai for the temporal
check; ra, dec, raErr, decErr for the commented-out positional
check). -/
structure Source where
  midpointMjdTai : ℚ
  ra : ℚ
  dec : ℚ
  raErr : ℚ
  decErr : ℚ
  deriving DecidableEq

/-- A decoded 2-D pixel cutout (list of rows). -/
def Grid : Type := List (List ℚ)

/-- A numpy masked array of pixels: each pixel carries its value and
whether it is masked (rejected by sigma clipping). -/
def MaskedImage : Type := List (List (ℚ × Bool))

/-- One incoming alert, with the fields read by the filtering module:
the n_previous_detections attribute, the current detection's mjd and
position, the prv_sources history, and the optional template/science
cutouts (already decoded from FITS bytes by the external astropy
collaborator). -/
structure Alert where
  n_previous_detections : ℕ
  mjd : ℚ
  ra : ℚ
  dec : ℚ
  ra_err : ℚ
  dec_err : ℚ
  prv_sources : List Source
  cutoutTemplate : Option Grid
  cutoutScience : Option Grid

/-- Failure raised while processing one alert.  missing_cutout models
the TypeError raised by fits.open(io.BytesIO(None)) in
_read_stamp_data when a cutout is absent from the alert dict. -/
inductive FilterError where
  | missing_cutout : FilterError
  deriving DecidableEq

/-- The two outgoing Pub/Sub topics of the module. -/
inductive Topic where
  | intra_night_discoveries : Topic
  | inter_night_discoveries : Topic
  deriving DecidableEq

/-- The temporal classification outcome of one alert (spec Decision
outcome). -/
inductive Outcome where
  | NoDiscovery : Outcome
  | IntraNight : Outcome
  | InterNight : Outcome
  deriving DecidableEq

/-- Calendar-day bucket of an MJD value, modelling
astropy.time.Time(mjd).datetime.strftime of "%Y-%m-%d": MJD day
boundaries are at integer MJD, so two values give equal date strings
iff their floors agree. -/
def mjd_calendar_day (mjd : ℚ) : ℤ := ⌊mjd⌋

/-- Embeds _mjds_to_datetime_strs: the day buckets of the prv_sources
midpointMjdTai values, and of the alert's current mjd. -/
def _mjds_to_datetime_strs (a : Alert) : List ℤ × ℤ :=
  (a.prv_sources.map (fun s => mjd_calendar_day s.midpointMjdTai),
   mjd_calendar_day a.mjd)

/-- Embeds _is_intra_night_discovery: requires exactly one previous
detection and the first previous day bucket equal to the current one.
(headI defaults to day 0 on an empty history, a state unreachable when
the n_previous_detections attribute matches the history length; the
Python would raise IndexError there.) -/
def _is_intra_night_discovery (a : Alert) : Bool :=
  if a.n_previous_detections ≠ 1 then false
  else
    let p := _mjds_to_datetime_strs a
    p.1.headI == p.2

/-- Embeds _is_inter_night_discovery: requires exactly two previous
detections, all previous day buckets equal (len(set(prv_mjds)) == 1,
i.e. one distinct value) and different from the current day bucket. -/
def _is_inter_night_discovery (a : Alert) : Bool :=
  if a.n_previous_detections ≠ 2 then false
  else
    let p := _mjds_to_datetime_strs a
    p.1.dedup.length == 1 && p.1.headI != p.2

/-- Keyword arguments of the two sigma_clip call sites. -/
structure SigmaClipKwargs where
  sigma : ℚ
  maxiters : ℕ

/-- The hostless_detection_with_clipping sub-configuration. -/
structure HostlessDetectionConfig where
  crop_radius : ℕ
  max_number_of_pixels_clipped : ℕ
  min_number_of_pixels_clipped : ℕ

/-- The configs dict built at the top of _is_candidate. -/
structure Configs where
  sigma_clipping_kwargs : SigmaClipKwargs
  hostless_detection_with_clipping : HostlessDetectionConfig

/-- The literal configuration of _is_candidate: sigma 3, maxiters 10,
crop_radius 12, max 5 / min 3 clipped pixels. -/
def filter_configs : Configs :=
  { sigma_clipping_kwargs := { sigma := 3, maxiters := 10 },
    hostless_detection_with_clipping :=
      { crop_radius := 12,
        max_number_of_pixels_clipped := 5,
        min_number_of_pixels_clipped := 3 } }

/-- Values of the pixels not yet masked. -/
def unmasked_values (img : MaskedImage) : List ℚ :=
  (img.flatten.filter (fun p => !p.2)).map Prod.fst

/-- numpy median of a nonempty list: middle element of the sorted list,
or the average of the two middle elements when the length is even. -/
def list_median (l : List ℚ) : ℚ :=
  let s := l.insertionSort (fun x y => x ≤ y)
  if l.length % 2 = 1 then s.getD (l.length / 2) 0
  else (s.getD (l.length / 2 - 1) 0 + s.getD (l.length / 2) 0) / 2

/-- numpy mean of a list of values. -/
def list_mean (l : List ℚ) : ℚ := l.sum / l.length

/-- numpy population variance (the square of np.std, ddof 0). -/
def list_var (l : List ℚ) : ℚ :=
  (l.map (fun x => (x - list_mean l) ^ 2)).sum / l.length

/-- One sigma-clipping iteration: compute the median and std of the
unmasked pixels and mask every pixel deviating from the median by more
than sigma * std.  The comparison is squared ((x - median)^2 >
sigma^2 * variance) to stay inside the rationals; it is equivalent for
the nonnegative sigma used at every call site.  An empty unmasked set
(all pixels already rejected) changes nothing, as astropy's nan
comparisons mask nothing. -/
def clip_step (kw : SigmaClipKwargs) (img : MaskedImage) : MaskedImage :=
  let vals := unmasked_values img
  if vals.isEmpty then img
  else
    let c := list_median vals
    let v := list_var vals
    img.map (List.map (fun p => (p.1, p.2 || decide ((p.1 - c) ^ 2 > kw.sigma ^ 2 * v))))

/-- Embeds astropy.stats.sigma_clip at the module's call sites:
iterate the clipping step maxiters times (early convergence is a
fixpoint of the step, so this equals astropy's stop-when-unchanged
loop). -/
def sigma_clip (kw : SigmaClipKwargs) (img : MaskedImage) : MaskedImage :=
  (clip_step kw)^[kw.maxiters] img

/-- A freshly decoded pixel grid enters sigma clipping with an all-false
mask. -/
def to_masked (g : Grid) : MaskedImage :=
  g.map (List.map (fun x => (x, false)))

/-- np.ma.count_masked: number of masked pixels. -/
def count_masked (img : MaskedImage) : ℕ :=
  (img.flatten.filter (fun p => p.2)).length

/-- Embeds _check_hostless_conditions: science-only detection (science
clipped count above the max threshold while the template count is
below the min threshold), or the symmetric template-only detection. -/
def _check_hostless_conditions (science_clipped template_clipped : MaskedImage)
    (detection_config : HostlessDetectionConfig) : Bool :=
  (count_masked science_clipped > detection_config.max_number_of_pixels_clipped
     && count_masked template_clipped < detection_config.min_number_of_pixels_clipped)
  || (count_masked template_clipped > detection_config.max_number_of_pixels_clipped
     && count_masked science_clipped < detection_config.min_number_of_pixels_clipped)

/-- Python's int() truncation toward zero of a rational value. -/
def py_int (q : ℚ) : ℤ := if q < 0 then ⌈q⌉ else ⌊q⌋

/-- Normalisation of one Python slice index: negative indices count
from the end, and the result is clamped to the list length. -/
def py_index (i : ℤ) (len : ℕ) : ℕ :=
  if i < 0 then (max (i + len) 0).toNat else min i.toNat len

/-- Python list slicing l[start:stop] with integer (possibly negative)
bounds. -/
def py_slice {α : Type} (l : List α) (start stop : ℤ) : List α :=
  let a := py_index start l.length
  let b := py_index stop l.length
  (l.drop a).take (b - a)

/-- Embeds _crop_center_patch: numpy slicing
input_image[x0 : x0 + 2r, y0 : y0 + 2r] with x0 = int(rows/2 - r) and
y0 = int(cols/2 - r) (shape[0:2] of the 2-D stamp). -/
def _crop_center_patch (input_image : MaskedImage) (patch_radius : ℕ) : MaskedImage :=
  let h := input_image.length
  let w := input_image.headI.length
  let x0 := py_int ((h : ℚ) / 2 - (patch_radius : ℚ))
  let y0 := py_int ((w : ℚ) / 2 - (patch_radius : ℚ))
  (py_slice input_image x0 (x0 + 2 * patch_radius)).map
    (fun row => py_slice row y0 (y0 + 2 * patch_radius))

/-- Embeds _run_hostless_detection_with_clipped_data: sigma-clip both
stamps and test the hostless conditions; if inconclusive, crop both
stamps to the centered patch, re-clip and re-test. -/
def _run_hostless_detection_with_clipped_data
    (science_stamp template_stamp : MaskedImage) (configs : Configs) : Bool :=
  let science_clipped := sigma_clip configs.sigma_clipping_kwargs science_stamp
  let template_clipped := sigma_clip configs.sigma_clipping_kwargs template_stamp
  if _check_hostless_conditions science_clipped template_clipped
      configs.hostless_detection_with_clipping then
    true
  else
    _check_hostless_conditions
      (sigma_clip configs.sigma_clipping_kwargs
        (_crop_center_patch science_stamp
          configs.hostless_detection_with_clipping.crop_radius))
      (sigma_clip configs.sigma_clipping_kwargs
        (_crop_center_patch template_stamp
          configs.hostless_detection_with_clipping.crop_radius))
      configs.hostless_detection_with_clipping

/-- Embeds _read_stamp_data: decoding the FITS bytes of a present
cutout is external and yields its pixel grid; an absent cutout raises
(TypeError from io.BytesIO(None)). -/
def _read_stamp_data (cutout : Option Grid) : Except FilterError Grid :=
  match cutout with
  | none => Except.error FilterError.missing_cutout
  | some g => Except.ok g

/-- Embeds _is_candidate.  Note the source's swapped naming: its
science_stamp_clipped variable is computed from the template stamp and
its template_stamp_clipped variable from the science stamp (main.py
lines 131-136); the first argument passed to the hostless run is the
clipped template data and the second the clipped science data, which
is preserved here.  The template stamp is read (and can fail) first,
as at the source's first sigma_clip call. -/
def _is_candidate (a : Alert) : Except FilterError Bool :=
  match _read_stamp_data a.cutoutTemplate with
  | Except.error e => Except.error e
  | Except.ok template_stamp =>
    match _read_stamp_data a.cutoutScience with
    | Except.error e => Except.error e
    | Except.ok science_stamp =>
      Except.ok (_run_hostless_detection_with_clipped_data
        (sigma_clip filter_configs.sigma_clipping_kwargs (to_masked template_stamp))
        (sigma_clip filter_configs.sigma_clipping_kwargs (to_masked science_stamp))
        filter_configs)

/-- Embeds filter_alert's routing: which topic (if any) the alert is
published to, or the error raised while deciding candidacy.  The
source publishes inside nested ifs and always returns HTTP 204 on the
non-raising paths; the published topic is the observable output
modelled here. -/
def filter_alert (a : Alert) : Except FilterError (Option Topic) :=
  if _is_intra_night_discovery a || _is_inter_night_discovery a then
    match _is_candidate a with
    | Except.error e => Except.error e
    | Except.ok c =>
      if c then
        if _is_intra_night_discovery a then
          Except.ok (some Topic.intra_night_discoveries)
        else if _is_inter_night_discovery a then
          Except.ok (some Topic.inter_night_discoveries)
        else Except.ok none
      else Except.ok none
  else Except.ok none

/-- The Decision outcome induced by filter_alert's branching (spec
section 4.4): the code does not reify a Decision record, so the
outcome is derived from the two classification predicates with the
same priority order the publishing code uses. -/
def outcome (a : Alert) : Outcome :=
  if _is_intra_night_discovery a then Outcome.IntraNight
  else if _is_inter_night_discovery a then Outcome.InterNight
  else Outcome.NoDiscovery

/-- Great-circle angular separation of two sky positions in
arcseconds, by the spherical law of cosines on (ra, dec) pairs given
in degrees.  This models the external astropy
SkyCoord.separation(...).arcsec collaborator used by the commented-out
positional check (spec section 4.1 names this same formula); it is
real-valued and therefore noncomputable. -/
noncomputable def angular_separation_arcsec (ra1 dec1 ra2 dec2 : ℝ) : ℝ :=
  Real.arccos (Real.sin (dec1 * (Real.pi / 180)) * Real.sin (dec2 * (Real.pi / 180)) +
      Real.cos (dec1 * (Real.pi / 180)) * Real.cos (dec2 * (Real.pi / 180)) *
        Real.cos ((ra1 - ra2) * (Real.pi / 180))) * (180 / Real.pi) * 3600

/-- Embeds _is_within_positional_uncertainty (main.py lines 222-242, a
function present in the source only as a commented-out block): the
separation of the current position from the first prior detection's
position is within 3 times the combined positional uncertainty
sqrt(ra_err^2 + dec_err^2 + prev_ra_err^2 + prev_dec_err^2).  An empty
history would raise IndexError in the Python; that unreachable case is
False here. -/
def _is_within_positional_uncertainty (a : Alert) : Prop :=
  match a.prv_sources with
  | [] => False
  | prev :: _ =>
    angular_separation_arcsec (a.ra : ℝ) (a.dec : ℝ) (prev.ra : ℝ) (prev.dec : ℝ) ≤
      3 * Real.sqrt ((a.ra_err : ℝ) ^ 2 + (a.dec_err : ℝ) ^ 2 +
        (prev.raErr : ℝ) ^ 2 + (prev.decErr : ℝ) ^ 2)

deriving instance DecidableEq for Except

set_option maxRecDepth 100000

/-- A 4 x 4 science stamp whose six decreasing outliers are clipped one
per sigma-clipping iteration, leaving 6 masked pixels (above the max
threshold 5). -/
def sci_grid : Grid :=
  [[100000, 10000, 1000, 100],
   [10, 1, 0, 0],
   [0, 0, 0, 0],
   [0, 0, 0, 0]]

/-- A flat 2 x 2 template stamp: sigma clipping masks nothing (below
the min threshold 3).  Its shape differs from sci_grid's. -/
def flat_grid : Grid := [[0, 0], [0, 0]]

/-- The first prior detection of alert A1: same calendar day as the
current detection, but 90 degrees away on the sky with zero reported
uncertainties. -/
def prev1 : Source :=
  { midpointMjdTai := 59000.2, ra := 90, dec := 0, raErr := 0, decErr := 0 }

/-- An intra-night discovery alert (one prior detection on the same
calendar day) whose prior position is far outside any positional
uncertainty, and whose cutouts have mismatched shapes with a
hostless-looking science stamp. -/
def A1 : Alert :=
  { n_previous_detections := 1,
    mjd := 59000.8, ra := 0, dec := 0, ra_err := 0, dec_err := 0,
    prv_sources := [prev1],
    cutoutTemplate := some flat_grid,
    cutoutScience := some sci_grid }

/-- A1 with a different current position (only the cutouts agree with
A1). -/
def A1_pos_shift : Alert := { A1 with ra := 42, dec := 7 }

/-- A first-ever detection: empty history. -/
def A0 : Alert :=
  { n_previous_detections := 0,
    mjd := 59002.5, ra := 0, dec := 0, ra_err := 0, dec_err := 0,
    prv_sources := [],
    cutoutTemplate := none,
    cutoutScience := none }

/-- A single prior detection two calendar days before the current one
(the spec's single different-day example: 59000.1 against 59002.5). -/
def A2 : Alert :=
  { n_previous_detections := 1,
    mjd := 59002.5, ra := 0, dec := 0, ra_err := 0, dec_err := 0,
    prv_sources := [{ midpointMjdTai := 59000.1, ra := 0, dec := 0, raErr := 0, decErr := 0 }],
    cutoutTemplate := none,
    cutoutScience := none }

/-- An intra-night discovery alert carrying no cutouts at all. -/
def A3 : Alert :=
  { n_previous_detections := 1,
    mjd := 59000.9, ra := 0, dec := 0, ra_err := 0, dec_err := 0,
    prv_sources := [{ midpointMjdTai := 59000.2, ra := 0, dec := 0, raErr := 0, decErr := 0 }],
    cutoutTemplate := none,
    cutoutScience := none }

/-- First prior detection of the two-prior alert A6. -/
def prev63 : Source :=
  { midpointMjdTai := 59000.3, ra := 0, dec := 0, raErr := 0, decErr := 0 }

/-- Second prior detection of the two-prior alert A6, on the same
calendar day as the first. -/
def prev66 : Source :=
  { midpointMjdTai := 59000.6, ra := 0, dec := 0, raErr := 0, decErr := 0 }

/-- An alert with two prior detections sharing one calendar day that
differs from the current detection's day. -/
def A6 : Alert :=
  { n_previous_detections := 2,
    mjd := 59002.5, ra := 0, dec := 0, ra_err := 0, dec_err := 0,
    prv_sources := [prev63, prev66],
    cutoutTemplate := none,
    cutoutScience := none }

/-- Prior detection at exactly the current position of A8 with zero
uncertainties. -/
def prev8 : Source :=
  { midpointMjdTai := 59000.2, ra := 10, dec := 0, raErr := 0, decErr := 0 }

/-- An alert whose current detection coincides exactly with its prior
detection's position, all uncertainties zero. -/
def A8 : Alert :=
  { n_previous_detections := 1,
    mjd := 59000.8, ra := 10, dec := 0, ra_err := 0, dec_err := 0,
    prv_sources := [prev8],
    cutoutTemplate := none,
    cutoutScience := none }

/-- Concrete evaluation: the hostless pipeline accepts A1's stamps
(six pixels of the 4 x 4 science stamp are sigma-clipped, none of the
2 x 2 template's are), so A1 is a candidate. -/
theorem A1_is_candidate : _is_candidate A1 = Except.ok true := by
  with_unfolding_all decide

/-- Concrete evaluation: A1 is published to the intra-night topic. -/
theorem A1_filter_publishes :
    filter_alert A1 = Except.ok (some Topic.intra_night_discoveries) := by
  with_unfolding_all decide

/-- Concrete evaluation: A1 is classified intra-night. -/
theorem A1_outcome : outcome A1 = Outcome.IntraNight := by
  with_unfolding_all decide

/-- List.dedup of a two-element list collapses exactly when the two
elements agree. -/
theorem dedup_pair (x y : ℤ) : [x, y].dedup = if x = y then [y] else [x, y] := by
  by_cases h : x = y <;>
    simp [List.dedup_cons_of_mem, List.dedup_cons_of_not_mem, h]

/-- C9: an alert with an empty detection history is classified
NoDiscovery, filtering raises no failure on it, and nothing is
published. -/
theorem c9_empty_history_no_discovery (a : Alert)
    (_hh : a.prv_sources = []) (hn : a.n_previous_detections = 0) :
    outcome a = Outcome.NoDiscovery ∧ filter_alert a = Except.ok none := by
  have hi : _is_intra_night_discovery a = false := by
    simp [_is_intra_night_discovery, hn]
  have hr : _is_inter_night_discovery a = false := by
    simp [_is_inter_night_discovery, hn]
  constructor
  · simp [outcome, hi, hr]
  · simp [filter_alert, hi, hr]

/-- C9 witness: the concrete first-ever detection A0. -/
theorem c9_empty_history_no_discovery_witness :
    outcome A0 = Outcome.NoDiscovery ∧ filter_alert A0 = Except.ok none :=
  c9_empty_history_no_discovery A0 rfl rfl

/-- C2 counterexample: a single prior detection two calendar days
earlier (the spec's own InterNight example) is classified NoDiscovery,
not InterNight: the inter-night branch demands exactly two prior
detections. -/
theorem c2_counterexample_different_day_single_prior :
    A2.n_previous_detections = 1 ∧
    mjd_calendar_day ((59000.1 : ℚ)) ≠ mjd_calendar_day A2.mjd ∧
    outcome A2 = Outcome.NoDiscovery := by
  refine ⟨rfl, ?_, ?_⟩ <;> with_unfolding_all decide

/-- C2 (amended): with exactly one prior detection the outcome is
IntraNight when prior and current detections share a calendar day and
NoDiscovery otherwise (never InterNight). -/
theorem c2_single_prior_intra_or_nothing (a : Alert) (s : Source)
    (hn : a.n_previous_detections = 1) (hh : a.prv_sources = [s]) :
    outcome a =
      (if mjd_calendar_day s.midpointMjdTai = mjd_calendar_day a.mjd then
        Outcome.IntraNight
      else Outcome.NoDiscovery) := by
  have hr : _is_inter_night_discovery a = false := by
    simp [_is_inter_night_discovery, hn]
  by_cases hd : mjd_calendar_day s.midpointMjdTai = mjd_calendar_day a.mjd <;>
    simp [outcome, _is_intra_night_discovery, _mjds_to_datetime_strs, hn, hh, hr, hd]

/-- C2 witness: the same-day single-prior alert A1 evaluates to
IntraNight through the amended classification. -/
theorem c2_single_prior_intra_or_nothing_witness : outcome A1 = Outcome.IntraNight := by
  rw [c2_single_prior_intra_or_nothing A1 prev1 rfl rfl]
  with_unfolding_all decide

/-- C6: with exactly two prior detections the outcome is InterNight
exactly when both priors share one calendar day differing from the
current detection's day, and is NoDiscovery in every other case. -/
theorem c6_two_prior_inter_night_iff (a : Alert) (s1 s2 : Source)
    (hn : a.n_previous_detections = 2) (hh : a.prv_sources = [s1, s2]) :
    (outcome a = Outcome.InterNight ↔
      (mjd_calendar_day s1.midpointMjdTai = mjd_calendar_day s2.midpointMjdTai ∧
       mjd_calendar_day s1.midpointMjdTai ≠ mjd_calendar_day a.mjd)) ∧
    (outcome a = Outcome.InterNight ∨ outcome a = Outcome.NoDiscovery) := by
  have hi : _is_intra_night_discovery a = false := by
    simp [_is_intra_night_discovery, hn]
  by_cases hd : mjd_calendar_day s1.midpointMjdTai = mjd_calendar_day s2.midpointMjdTai <;>
    by_cases hl : mjd_calendar_day s1.midpointMjdTai = mjd_calendar_day a.mjd <;>
      simp [outcome, _is_inter_night_discovery, _mjds_to_datetime_strs, hn, hh, hi,
        dedup_pair, hd, hl] <;>
    tauto

/-- C6 witness: the concrete two-prior alert A6 is InterNight. -/
theorem c6_two_prior_inter_night_iff_witness : outcome A6 = Outcome.InterNight :=
  (c6_two_prior_inter_night_iff A6 prev63 prev66 rfl rfl).1.mpr
    (by constructor <;> with_unfolding_all decide)

/-- Inversion of a publication: if filter_alert published topic t, the
candidate check succeeded with true and t matches the discovery
classification (intra-night taking priority, as in the source's
if/elif). -/
theorem filter_alert_published (a : Alert) (t : Topic)
    (ht : filter_alert a = Except.ok (some t)) :
    _is_candidate a = Except.ok true ∧
    ((_is_intra_night_discovery a = true ∧ t = Topic.intra_night_discoveries) ∨
     (_is_intra_night_discovery a = false ∧ _is_inter_night_discovery a = true ∧
       t = Topic.inter_night_discoveries)) := by
  by_cases hi : _is_intra_night_discovery a = true
  · cases hc : _is_candidate a with
    | error e => simp only [filter_alert] at ht; simp [hi, hc] at ht
    | ok c =>
      cases c
      · simp only [filter_alert] at ht; simp [hi, hc] at ht
      · simp only [filter_alert] at ht
        simp [hi, hc] at ht
        exact ⟨rfl, Or.inl ⟨hi, ht.symm⟩⟩
  · simp only [Bool.not_eq_true] at hi
    by_cases hr : _is_inter_night_discovery a = true
    · cases hc : _is_candidate a with
      | error e => simp only [filter_alert] at ht; simp [hi, hr, hc] at ht
      | ok c =>
        cases c
        · simp only [filter_alert] at ht; simp [hi, hr, hc] at ht
        · simp only [filter_alert] at ht
          simp [hi, hr, hc] at ht
          exact ⟨rfl, Or.inr ⟨hi, hr, ht.symm⟩⟩
    · simp only [Bool.not_eq_true] at hr
      simp [filter_alert, hi, hr] at ht

/-- C5: a summary is published only when the alert is a discovery and
the candidate check returns true; it is routed to the intra-night
topic on IntraNight and to the inter-night topic on InterNight, and a
NoDiscovery alert publishes nothing (and raises nothing). -/
theorem c5_publication_policy (a : Alert) :
    (outcome a = Outcome.NoDiscovery → filter_alert a = Except.ok none) ∧
    (∀ t : Topic, filter_alert a = Except.ok (some t) →
      _is_candidate a = Except.ok true ∧
      ((outcome a = Outcome.IntraNight ∧ t = Topic.intra_night_discoveries) ∨
       (outcome a = Outcome.InterNight ∧ t = Topic.inter_night_discoveries))) ∧
    (outcome a = Outcome.IntraNight → _is_candidate a = Except.ok true →
      filter_alert a = Except.ok (some Topic.intra_night_discoveries)) ∧
    (outcome a = Outcome.InterNight → _is_candidate a = Except.ok true →
      filter_alert a = Except.ok (some Topic.inter_night_discoveries)) := by
  refine ⟨?_, ?_, ?_, ?_⟩
  · intro h
    by_cases hi : _is_intra_night_discovery a = true
    · simp [outcome, hi] at h
    · by_cases hr : _is_inter_night_discovery a = true
      · simp [outcome, hi, hr] at h
      · simp only [Bool.not_eq_true] at hi hr
        simp [filter_alert, hi, hr]
  · intro t ht
    obtain ⟨hc, hcase⟩ := filter_alert_published a t ht
    refine ⟨hc, ?_⟩
    rcases hcase with ⟨hi, hteq⟩ | ⟨hi, hr, hteq⟩
    · exact Or.inl ⟨by simp [outcome, hi], hteq⟩
    · exact Or.inr ⟨by simp [outcome, hi, hr], hteq⟩
  · intro ho hc
    have hi : _is_intra_night_discovery a = true := by
      by_contra hi
      simp only [Bool.not_eq_true] at hi
      by_cases hr : _is_inter_night_discovery a = true <;> simp [outcome, hi, hr] at ho
    simp [filter_alert, hi, hc]
  · intro ho hc
    have hi : _is_intra_night_discovery a = false := by
      by_contra hi
      simp only [Bool.not_eq_false] at hi
      simp [outcome, hi] at ho
    have hr : _is_inter_night_discovery a = true := by
      by_contra hr
      simp only [Bool.not_eq_true] at hr
      simp [outcome, hi, hr] at ho
    simp [filter_alert, hi, hr, hc]

/-- C5 witness: the empty-history alert A0 is NoDiscovery and
publishes nothing. -/
theorem c5_publication_policy_witness : filter_alert A0 = Except.ok none :=
  (c5_publication_policy A0).1 rfl

/-- C7: the hostless condition check holds exactly when one image's
masked count is above the detection maximum while the other's is below
the non-detection minimum; with the module's thresholds (max 5, min 3)
two identical masked images can never be flagged hostless. -/
theorem c7_check_hostless_conditions_iff :
    (∀ (science_clipped template_clipped : MaskedImage) (cfg : HostlessDetectionConfig),
      _check_hostless_conditions science_clipped template_clipped cfg = true ↔
        ((count_masked science_clipped > cfg.max_number_of_pixels_clipped ∧
          count_masked template_clipped < cfg.min_number_of_pixels_clipped) ∨
         (count_masked template_clipped > cfg.max_number_of_pixels_clipped ∧
          count_masked science_clipped < cfg.min_number_of_pixels_clipped))) ∧
    (∀ m : MaskedImage,
      _check_hostless_conditions m m filter_configs.hostless_detection_with_clipping = false) := by
  constructor
  · intro s t cfg
    simp [_check_hostless_conditions]
  · intro m
    simp only [_check_hostless_conditions, filter_configs, Bool.or_eq_false_iff,
      Bool.and_eq_false_iff, decide_eq_false_iff_not, not_lt]
    omega

/-- C7 witness: two empty (hence identical) masked images are not
flagged. -/
theorem c7_check_hostless_conditions_iff_witness :
    _check_hostless_conditions [] [] filter_configs.hostless_detection_with_clipping = false :=
  c7_check_hostless_conditions_iff.2 []

/-- The hostless condition check is symmetric in its two images. -/
theorem check_hostless_comm (s t : MaskedImage) (cfg : HostlessDetectionConfig) :
    _check_hostless_conditions s t cfg = _check_hostless_conditions t s cfg :=
  Bool.or_comm _ _

/-- C10: the whole hostless run (clip, check, and on an inconclusive
first pass crop, re-clip, re-check) is invariant under swapping the
two stamps, for every configuration; hence _is_candidate's swapped
assignment of the clipped template and science stamps does not change
the boolean it returns. -/
theorem c10_hostless_swap_invariant (s t : MaskedImage) (cfg : Configs) :
    _run_hostless_detection_with_clipped_data s t cfg =
      _run_hostless_detection_with_clipped_data t s cfg := by
  simp only [_run_hostless_detection_with_clipped_data]
  rw [check_hostless_comm (sigma_clip cfg.sigma_clipping_kwargs s),
    check_hostless_comm
      (sigma_clip cfg.sigma_clipping_kwargs
        (_crop_center_patch s cfg.hostless_detection_with_clipping.crop_radius))]

/-- C3 counterexample: a discovery alert with no cutouts makes the
candidate check (and the whole filter) raise the missing-cutout
failure instead of defaulting the hostless check to true. -/
theorem c3_counterexample_missing_cutouts_error :
    outcome A3 = Outcome.IntraNight ∧
    _is_candidate A3 = Except.error FilterError.missing_cutout ∧
    filter_alert A3 = Except.error FilterError.missing_cutout := by
  refine ⟨?_, ?_, ?_⟩ <;> with_unfolding_all decide

/-- C3 (amended): for a discovery alert with either cutout absent,
filtering raises the missing-cutout failure (nothing is published and
no default is applied). -/
theorem c3_missing_cutouts_raise (a : Alert)
    (hgate : (_is_intra_night_discovery a || _is_inter_night_discovery a) = true)
    (hmiss : a.cutoutTemplate = none ∨ a.cutoutScience = none) :
    filter_alert a = Except.error FilterError.missing_cutout := by
  have hc : _is_candidate a = Except.error FilterError.missing_cutout := by
    rcases hmiss with h | h
    · simp [_is_candidate, _read_stamp_data, h]
    · cases ht : a.cutoutTemplate <;> simp [_is_candidate, _read_stamp_data, h, ht]
  simp [filter_alert, hgate, hc]

/-- C3 witness: the cutout-free discovery alert A3. -/
theorem c3_missing_cutouts_raise_witness :
    filter_alert A3 = Except.error FilterError.missing_cutout :=
  c3_missing_cutouts_raise A3 (by with_unfolding_all decide) (Or.inl rfl)

/-- C4 counterexample: A1's cutouts have mismatched shapes (4 rows
against 2), yet the engine reports no failure and publishes an
intra-night candidate from them. -/
theorem c4_counterexample_mismatched_shapes_published :
    A1.cutoutScience = some sci_grid ∧ A1.cutoutTemplate = some flat_grid ∧
    List.length sci_grid ≠ List.length flat_grid ∧
    filter_alert A1 = Except.ok (some Topic.intra_night_discoveries) :=
  ⟨rfl, rfl, by decide, A1_filter_publishes⟩

/-- C4 (amended): the engine performs no image-shape validation at
all: whenever both cutouts are present it returns a Decision (an ok
boolean), whatever the grids' shapes. -/
theorem c4_no_shape_validation (a : Alert) (t s : Grid)
    (ht : a.cutoutTemplate = some t) (hs : a.cutoutScience = some s) :
    ∃ b : Bool, _is_candidate a = Except.ok b := by
  simp only [_is_candidate, _read_stamp_data, ht, hs]
  exact ⟨_, rfl⟩

/-- C4 witness: the mismatched-shape alert A1 yields an ok decision. -/
theorem c4_no_shape_validation_witness : ∃ b : Bool, _is_candidate A1 = Except.ok b :=
  c4_no_shape_validation A1 flat_grid sci_grid rfl rfl

/-- C1 (amended): candidacy is decided from the cutouts alone (the
hostless check); in particular the positional data of the alert plays
no role, the positional-consistency check being commented out in the
source. -/
theorem c1_candidate_depends_only_on_cutouts (a1 a2 : Alert)
    (ht : a1.cutoutTemplate = a2.cutoutTemplate) (hs : a1.cutoutScience = a2.cutoutScience) :
    _is_candidate a1 = _is_candidate a2 := by
  simp only [_is_candidate, ht, hs]

/-- C1 witness: moving A1's current position does not change its
candidacy. -/
theorem c1_candidate_depends_only_on_cutouts_witness :
    _is_candidate A1 = _is_candidate A1_pos_shift :=
  c1_candidate_depends_only_on_cutouts A1 A1_pos_shift rfl rfl

/-- C8: the positional-consistency check holds exactly when the
angular separation is at most 3 times the combined uncertainty
sqrt(ra_err^2 + dec_err^2 + prev_ra_err^2 + prev_dec_err^2); the
boundary is inclusive, zero uncertainties are valid and reduce the
test to separation at most zero, and exceeding the threshold by any
positive amount fails the check. -/
theorem c8_positional_consistency_boundary (a : Alert) (prev : Source) (rest : List Source)
    (h : a.prv_sources = prev :: rest) :
    (_is_within_positional_uncertainty a ↔
      angular_separation_arcsec (a.ra : ℝ) (a.dec : ℝ) (prev.ra : ℝ) (prev.dec : ℝ) ≤
        3 * Real.sqrt ((a.ra_err : ℝ) ^ 2 + (a.dec_err : ℝ) ^ 2 +
          (prev.raErr : ℝ) ^ 2 + (prev.decErr : ℝ) ^ 2)) ∧
    ((a.ra_err = 0 ∧ a.dec_err = 0 ∧ prev.raErr = 0 ∧ prev.decErr = 0) →
      (_is_within_positional_uncertainty a ↔
        angular_separation_arcsec (a.ra : ℝ) (a.dec : ℝ) (prev.ra : ℝ) (prev.dec : ℝ) ≤ 0)) ∧
    (∀ e : ℝ, 0 < e →
      angular_separation_arcsec (a.ra : ℝ) (a.dec : ℝ) (prev.ra : ℝ) (prev.dec : ℝ) =
        3 * Real.sqrt ((a.ra_err : ℝ) ^ 2 + (a.dec_err : ℝ) ^ 2 +
          (prev.raErr : ℝ) ^ 2 + (prev.decErr : ℝ) ^ 2) + e →
      ¬ _is_within_positional_uncertainty a) := by
  have hiff : _is_within_positional_uncertainty a ↔
      angular_separation_arcsec (a.ra : ℝ) (a.dec : ℝ) (prev.ra : ℝ) (prev.dec : ℝ) ≤
        3 * Real.sqrt ((a.ra_err : ℝ) ^ 2 + (a.dec_err : ℝ) ^ 2 +
          (prev.raErr : ℝ) ^ 2 + (prev.decErr : ℝ) ^ 2) := by
    unfold _is_within_positional_uncertainty
    rw [h]
  refine ⟨hiff, ?_, ?_⟩
  · rintro ⟨h1, h2, h3, h4⟩
    rw [hiff, h1, h2, h3, h4]
    norm_num
  · intro e he hsep
    rw [hiff, hsep]
    intro hc
    have hs : (0 : ℝ) ≤ 3 * Real.sqrt ((a.ra_err : ℝ) ^ 2 + (a.dec_err : ℝ) ^ 2 +
        (prev.raErr : ℝ) ^ 2 + (prev.decErr : ℝ) ^ 2) := by positivity
    linarith

/-- C8 witness: an alert whose current detection coincides with its
prior detection (separation zero, uncertainties zero) passes the
check. -/
theorem c8_positional_consistency_boundary_witness : _is_within_positional_uncertainty A8 :=
  (c8_positional_consistency_boundary A8 prev8 [] rfl).1.mpr (by
    have hsep : angular_separation_arcsec ((10 : ℚ) : ℝ) ((0 : ℚ) : ℝ)
        ((10 : ℚ) : ℝ) ((0 : ℚ) : ℝ) = 0 := by
      unfold angular_separation_arcsec
      push_cast
      norm_num [Real.arccos_one]
    have hsep8 : angular_separation_arcsec ((A8.ra : ℚ) : ℝ) ((A8.dec : ℚ) : ℝ)
        ((prev8.ra : ℚ) : ℝ) ((prev8.dec : ℚ) : ℝ) = 0 := hsep
    rw [hsep8]
    positivity)

/-- The separation of A1's current position (ra 0, dec 0) from its
prior detection's position (ra 90, dec 0) is 90 degrees, i.e. 324000
arcseconds. -/
theorem A1_separation :
    angular_separation_arcsec ((0 : ℚ) : ℝ) ((0 : ℚ) : ℝ) ((90 : ℚ) : ℝ) ((0 : ℚ) : ℝ) =
      324000 := by
  unfold angular_separation_arcsec
  push_cast
  rw [zero_mul, Real.sin_zero, Real.cos_zero]
  have h1 : ((0 : ℝ) - 90) * (Real.pi / 180) = -(Real.pi / 2) := by ring
  rw [h1, Real.cos_neg, Real.cos_pi_div_two]
  norm_num [Real.arccos_zero]
  field_simp
  ring

/-- A1's prior detection lies far outside three combined positional
uncertainties of the current detection. -/
theorem A1_not_positionally_consistent : ¬ _is_within_positional_uncertainty A1 := by
  show ¬ (angular_separation_arcsec ((0 : ℚ) : ℝ) ((0 : ℚ) : ℝ) ((90 : ℚ) : ℝ) ((0 : ℚ) : ℝ) ≤
      3 * Real.sqrt (((0 : ℚ) : ℝ) ^ 2 + ((0 : ℚ) : ℝ) ^ 2 +
        ((0 : ℚ) : ℝ) ^ 2 + ((0 : ℚ) : ℝ) ^ 2))
  rw [A1_separation]
  norm_num

/-- C1 counterexample: A1 is a discovery whose positional-consistency
check fails, yet the engine still reports it a candidate: candidacy
does not require the positional check to pass (the hostless check
alone decides). -/
theorem c1_counterexample_position_not_required :
    outcome A1 = Outcome.IntraNight ∧
    ¬ _is_within_positional_uncertainty A1 ∧
    _is_candidate A1 = Except.ok true :=
  ⟨A1_outcome, A1_not_positionally_consistent, A1_is_candidate⟩
